import Mathlib

/-!
# geo.go: 3x3 homogeneous transforms

Shallow embedding of `src/geo.go`.  The Go type `Mat3x3` is `[9]float64`, a
row-major 3x3 matrix.  The definitions are written once, over any scalar type
`R` that has `0`, `1`, `+`, `-`, `*`, `/` and negation, and are read in two
ways:

* over a field (the rationals for evaluation, the reals for the trigonometric
  identities): exact arithmetic, no rounding;
* over `Float64`, the binary64 numbers with every operation rounded to
  nearest, ties to even: the arithmetic the Go program performs on finite
  values.

`math.Cos` and `math.Sin` belong to the Go library; they are passed to the
rotation constructors as functions `R → R`.  Theorems that need trigonometric
identities instantiate them with `Real.cos` and `Real.sin`; evaluations over
`Float64` state the library values they use.
-/

namespace Geo

/-- The array type `Mat3x3 [9]float64`; field `mi` is the entry `m[i]`. -/
@[ext]
structure Mat3x3 (R : Type) where
  m0 : R
  m1 : R
  m2 : R
  m3 : R
  m4 : R
  m5 : R
  m6 : R
  m7 : R
  m8 : R
deriving DecidableEq, Repr

section Scalar

/- `OfNat R 1`, `HMul R R R` and `HDiv R R R` are the classes of the literal
`1`, of `*` and of `/` on `R`; inside this namespace the names `One`, `Mul` and
`Div` are functions of the package. -/
variable {R : Type} [Zero R] [OfNat R 1] [Add R] [Sub R] [HMul R R R] [Neg R] [HDiv R R R]

/-- Array read `m[i]`.  Every index the source computes lies in `0..8`; the
last arm is never reached by the embedded code. -/
def Mat3x3.get (m : Mat3x3 R) (i : Nat) : R :=
  match i with
  | 0 => m.m0
  | 1 => m.m1
  | 2 => m.m2
  | 3 => m.m3
  | 4 => m.m4
  | 5 => m.m5
  | 6 => m.m6
  | 7 => m.m7
  | 8 => m.m8
  | _ => 0

/-- Array write `m[i] = v`, as a new value. -/
def Mat3x3.set (m : Mat3x3 R) (i : Nat) (v : R) : Mat3x3 R :=
  match i with
  | 0 => { m with m0 := v }
  | 1 => { m with m1 := v }
  | 2 => { m with m2 := v }
  | 3 => { m with m3 := v }
  | 4 => { m with m4 := v }
  | 5 => { m with m5 := v }
  | 6 => { m with m6 := v }
  | 7 => { m with m7 := v }
  | 8 => { m with m8 := v }
  | _ => m

/-- `NewMat3x3(a1, a2, a3, b1, b2, b3, c1, c2, c3)`. -/
def NewMat3x3 (a1 a2 a3 b1 b2 b3 c1 c2 c3 : R) : Mat3x3 R :=
  ⟨a1, a2, a3, b1, b2, b3, c1, c2, c3⟩

/-- The zero value of `var r Mat3x3`. -/
def Mat3x3.zeroValue : Mat3x3 R := ⟨0, 0, 0, 0, 0, 0, 0, 0, 0⟩

/-- Method `(m *Mat3x3) Mul(m2)`: the triple loop
`r[i*3+j] += m[i*3+k] * m2[k*3+j]` over `i, j, k < 3`, starting from the zero
array. -/
def Mat3x3.Mul (m m2 : Mat3x3 R) : Mat3x3 R :=
  (List.range 3).foldl (fun r i =>
    (List.range 3).foldl (fun r j =>
      (List.range 3).foldl (fun r k =>
        r.set (i * 3 + j) (r.get (i * 3 + j) + m.get (i * 3 + k) * m2.get (k * 3 + j)))
        r)
      r)
    Mat3x3.zeroValue

/-- Function `Mul(m1, m2)`. -/
def Mul (m1 m2 : Mat3x3 R) : Mat3x3 R := m1.Mul m2

/-- `One()`: the literal `Mat3x3{0,0,0,0,0,0,0,0,0}`. -/
def One : Mat3x3 R := ⟨0, 0, 0, 0, 0, 0, 0, 0, 0⟩

/-- `Move(tx, ty)`. -/
def Move (tx ty : R) : Mat3x3 R := NewMat3x3 1 0 0 0 1 0 tx ty 1

/-- `Scale(sx, sy)`. -/
def Scale (sx sy : R) : Mat3x3 R := NewMat3x3 sx 0 0 0 sy 0 0 0 1

/-- `Rotate(theta)`, with `math.Cos` and `math.Sin` as `cos` and `sin`. -/
def Rotate (cos sin : R → R) (theta : R) : Mat3x3 R :=
  NewMat3x3 (cos theta) (sin theta) 0 (-sin theta) (cos theta) 0 0 0 1

/-- `RotateClockwise(theta)`. -/
def RotateClockwise (cos sin : R → R) (theta : R) : Mat3x3 R :=
  NewMat3x3 (-cos theta) (sin theta) 0 (-sin theta) (-cos theta) 0 0 0 1

/-- Method `(m *Mat3x3) WithPo(x, y)`: `Move(-x, -y).Mul(m).Mul(Move(x, y))`. -/
def Mat3x3.WithPo (m : Mat3x3 R) (x y : R) : Mat3x3 R :=
  ((Move (-x) (-y)).Mul m).Mul (Move x y)

/-- `RotateWithPo(theta, x, y)`: `Rotate(theta).WithPo(x, y)`. -/
def RotateWithPo (cos sin : R → R) (theta x y : R) : Mat3x3 R :=
  (Rotate cos sin theta).WithPo x y

/-- Method `(m *Mat3x3) Apply(x, y)`. -/
def Mat3x3.Apply (m : Mat3x3 R) (x y : R) : R × R :=
  let t1 := x * m.get 0 + y * m.get 3 + m.get 6
  let t2 := x * m.get 1 + y * m.get 4 + m.get 7
  (t1, t2)

/-- Method `(m *Mat3x3) Deter()`. -/
def Mat3x3.Deter (m : Mat3x3 R) : R :=
  m.get 0 * (m.get 4 * m.get 8 - m.get 5 * m.get 7)
    + m.get 1 * (m.get 5 * m.get 6 - m.get 3 * m.get 8)
    + m.get 2 * (m.get 3 * m.get 7 - m.get 4 * m.get 6)

/-- `Cross(x1, y1, x2, y2)`. -/
def Cross (x1 y1 x2 y2 : R) : R := x1 * y2 - y1 * x2

/-- Method `(m *Mat3x3) Div(a)`: every entry times `invA := 1 / a`. -/
def Mat3x3.Div (m : Mat3x3 R) (a : R) : Mat3x3 R :=
  let invA := 1 / a
  NewMat3x3 (m.get 0 * invA) (m.get 1 * invA) (m.get 2 * invA)
    (m.get 3 * invA) (m.get 4 * invA) (m.get 5 * invA)
    (m.get 6 * invA) (m.get 7 * invA) (m.get 8 * invA)

/-- Method `(m *Mat3x3) Inv()`: the adjugate built from `Cross`, divided by
`m.Deter()`. -/
def Mat3x3.Inv (m : Mat3x3 R) : Mat3x3 R :=
  (NewMat3x3
    (Cross (m.get 4) (m.get 5) (m.get 7) (m.get 8))
    (-Cross (m.get 1) (m.get 2) (m.get 7) (m.get 8))
    (Cross (m.get 1) (m.get 2) (m.get 4) (m.get 5))
    (-Cross (m.get 3) (m.get 5) (m.get 6) (m.get 8))
    (Cross (m.get 0) (m.get 2) (m.get 6) (m.get 8))
    (-Cross (m.get 0) (m.get 2) (m.get 3) (m.get 5))
    (Cross (m.get 3) (m.get 4) (m.get 6) (m.get 7))
    (-Cross (m.get 0) (m.get 1) (m.get 6) (m.get 7))
    (Cross (m.get 0) (m.get 1) (m.get 3) (m.get 4))).Div m.Deter

/-- Method `(m *Mat3x3) Move(tx, ty)`. -/
def Mat3x3.Move (m : Mat3x3 R) (tx ty : R) : Mat3x3 R := m.Mul (Geo.Move tx ty)

/-- Method `(m *Mat3x3) Scale(sx, sy)`. -/
def Mat3x3.Scale (m : Mat3x3 R) (sx sy : R) : Mat3x3 R := m.Mul (Geo.Scale sx sy)

/-- Method `(m *Mat3x3) Rotate(theta)`. -/
def Mat3x3.Rotate (m : Mat3x3 R) (cos sin : R → R) (theta : R) : Mat3x3 R :=
  m.Mul (Geo.Rotate cos sin theta)

/-- Method `(m *Mat3x3) RotateWithPo(theta, x, y)`. -/
def Mat3x3.RotateWithPo (m : Mat3x3 R) (cos sin : R → R) (theta x y : R) : Mat3x3 R :=
  m.Mul (Geo.RotateWithPo cos sin theta x y)

/-- Method `(m *Mat3x3) RotateClockwise(theta)`. -/
def Mat3x3.RotateClockwise (m : Mat3x3 R) (cos sin : R → R) (theta : R) : Mat3x3 R :=
  m.Mul (Geo.RotateClockwise cos sin theta)

/-- `SymAboutX`. -/
def SymAboutX : Mat3x3 R := NewMat3x3 1 0 0 0 (-1) 0 0 0 1

/-- `SymAboutY`. -/
def SymAboutY : Mat3x3 R := NewMat3x3 (-1) 0 0 0 1 0 0 0 1

/-- `SymAboutO`. -/
def SymAboutO : Mat3x3 R := NewMat3x3 (-1) 0 0 0 (-1) 0 0 0 1

/-- `SymAboutXY`. -/
def SymAboutXY : Mat3x3 R := NewMat3x3 0 1 0 1 0 0 0 0 1

/-- `SymAboutXfY`. -/
def SymAboutXfY : Mat3x3 R := NewMat3x3 0 (-1) 0 (-1) 0 0 0 0 1

/-- The 3x3 matrix with rows `(m[0], m[1], m[2])`, `(m[3], m[4], m[5])`,
`(m[6], m[7], m[8])`: the row-major reading of the array. -/
def Mat3x3.toMatrix (m : Mat3x3 R) : Matrix (Fin 3) (Fin 3) R :=
  Matrix.of ![![m.get 0, m.get 1, m.get 2], ![m.get 3, m.get 4, m.get 5],
    ![m.get 6, m.get 7, m.get 8]]

/-- A matrix whose third column is `(0, 0, 1)`. -/
def Mat3x3.IsAffine (m : Mat3x3 R) : Prop :=
  m.get 2 = 0 ∧ m.get 5 = 0 ∧ m.get 8 = 1

end Scalar

section Ordered

variable {R : Type} [LinearOrderedField R]

/-- The package variable `eps = 1e-8`. -/
def eps : R := 1e-8

/-- Method `(m *Mat3x3) Fix()`: the loop over `i < 9` that stores `0` in
`m[i]` when `math.Abs(m[i]) < eps`; the mutated receiver is returned. -/
def Mat3x3.Fix (m : Mat3x3 R) : Mat3x3 R :=
  (List.range 9).foldl (fun m i => if |m.get i| < eps then m.set i 0 else m) m

end Ordered

/-! ## float64 arithmetic -/

/-- The Go type `float64`: a finite binary64 number, given by its exact
rational value, or `nonFinite` for an infinity or NaN.  The sign of zero is
not recorded.  Arithmetic on `nonFinite` is not modelled further: it stays
`nonFinite`, and no theorem below reads such a result. -/
inductive Float64 where
  | fin (q : ℚ)
  | nonFinite
deriving DecidableEq

/-- Floor of the binary logarithm of `n` (`0` for `n ≤ 1`), by halving at most
`fuel` times; `fuel = n` always suffices. -/
def log2Floor (fuel n : Nat) : Nat :=
  match fuel with
  | 0 => 0
  | f + 1 => if n < 2 then 0 else log2Floor f (n / 2) + 1

/-- The integer nearest to `n / d`, ties to the even one (`d > 0`). -/
def roundHalfEven (n d : Nat) : Nat :=
  let q := n / d
  let r := n % d
  if 2 * r < d then q else if d < 2 * r then q + 1 else if q % 2 = 0 then q else q + 1

/-- Rounding of an exact rational result to binary64, to nearest with ties to
even: 53 significant bits, least exponent `2^-1074` (subnormals), overflow at
`2^1024`. -/
def Float64.round (x : ℚ) : Float64 :=
  if x = 0 then Float64.fin 0
  else
    let n := x.num.natAbs
    let d := x.den
    let l : Int := (log2Floor n n : Int) - (log2Floor d d : Int)
    let e : Int :=
      if (if 0 ≤ l then d * 2 ^ l.toNat ≤ n else d ≤ n * 2 ^ (-l).toNat) then l else l - 1
    let p : Int := max (e - 52) (-1074)
    let m : Nat :=
      if 0 ≤ p then roundHalfEven n (d * 2 ^ p.toNat) else roundHalfEven (n * 2 ^ (-p).toNat) d
    if 971 < p ∨ (p = 971 ∧ 2 ^ 53 ≤ m) then Float64.nonFinite
    else
      let v : ℚ := if 0 ≤ p then ((m * 2 ^ p.toNat : Nat) : ℚ) else mkRat (m : Int) (2 ^ (-p).toNat)
      Float64.fin (if x.num < 0 then -v else v)

instance : Zero Float64 := ⟨Float64.fin 0⟩

instance : OfNat Float64 1 := ⟨Float64.fin 1⟩

instance : NatCast Float64 := ⟨fun n => Float64.round n⟩

instance : OfScientific Float64 :=
  ⟨fun m s e => Float64.round (OfScientific.ofScientific m s e)⟩

instance : Neg Float64 :=
  ⟨fun a => match a with
    | Float64.fin x => Float64.fin (-x)
    | Float64.nonFinite => Float64.nonFinite⟩

instance : Add Float64 :=
  ⟨fun a b => match a, b with
    | Float64.fin x, Float64.fin y => Float64.round (x + y)
    | _, _ => Float64.nonFinite⟩

instance : Sub Float64 :=
  ⟨fun a b => match a, b with
    | Float64.fin x, Float64.fin y => Float64.round (x - y)
    | _, _ => Float64.nonFinite⟩

instance : HMul Float64 Float64 Float64 :=
  ⟨fun a b => match a, b with
    | Float64.fin x, Float64.fin y => Float64.round (x * y)
    | _, _ => Float64.nonFinite⟩

instance : HDiv Float64 Float64 Float64 :=
  ⟨fun a b => match a, b with
    | Float64.fin x, Float64.fin y => if y = 0 then Float64.nonFinite else Float64.round (x / y)
    | _, _ => Float64.nonFinite⟩

/-! ## Closed forms of the loops -/

section Lemmas

variable {R : Type} [Field R]

theorem Mat3x3.Mul_unfold (a b : Mat3x3 R) :
    a.Mul b =
      ⟨0 + a.m0 * b.m0 + a.m1 * b.m3 + a.m2 * b.m6,
       0 + a.m0 * b.m1 + a.m1 * b.m4 + a.m2 * b.m7,
       0 + a.m0 * b.m2 + a.m1 * b.m5 + a.m2 * b.m8,
       0 + a.m3 * b.m0 + a.m4 * b.m3 + a.m5 * b.m6,
       0 + a.m3 * b.m1 + a.m4 * b.m4 + a.m5 * b.m7,
       0 + a.m3 * b.m2 + a.m4 * b.m5 + a.m5 * b.m8,
       0 + a.m6 * b.m0 + a.m7 * b.m3 + a.m8 * b.m6,
       0 + a.m6 * b.m1 + a.m7 * b.m4 + a.m8 * b.m7,
       0 + a.m6 * b.m2 + a.m7 * b.m5 + a.m8 * b.m8⟩ := rfl

theorem Mat3x3.Deter_unfold (m : Mat3x3 R) :
    m.Deter = m.m0 * (m.m4 * m.m8 - m.m5 * m.m7) + m.m1 * (m.m5 * m.m6 - m.m3 * m.m8)
      + m.m2 * (m.m3 * m.m7 - m.m4 * m.m6) := rfl

theorem Mat3x3.Apply_unfold (m : Mat3x3 R) (x y : R) :
    m.Apply x y = (x * m.m0 + y * m.m3 + m.m6, x * m.m1 + y * m.m4 + m.m7) := rfl

theorem Mat3x3.Inv_unfold (m : Mat3x3 R) :
    m.Inv =
      ⟨(m.m4 * m.m8 - m.m5 * m.m7) * (1 / m.Deter),
       -(m.m1 * m.m8 - m.m2 * m.m7) * (1 / m.Deter),
       (m.m1 * m.m5 - m.m2 * m.m4) * (1 / m.Deter),
       -(m.m3 * m.m8 - m.m5 * m.m6) * (1 / m.Deter),
       (m.m0 * m.m8 - m.m2 * m.m6) * (1 / m.Deter),
       -(m.m0 * m.m5 - m.m2 * m.m3) * (1 / m.Deter),
       (m.m3 * m.m7 - m.m4 * m.m6) * (1 / m.Deter),
       -(m.m0 * m.m7 - m.m1 * m.m6) * (1 / m.Deter),
       (m.m0 * m.m4 - m.m1 * m.m3) * (1 / m.Deter)⟩ := rfl

/-- The product of a matrix with non-zero determinant and its `Inv` is the
unit matrix. -/
theorem Mat3x3.Mul_Inv_eq (M : Mat3x3 R) (h : M.Deter ≠ 0) :
    M.Mul M.Inv = NewMat3x3 1 0 0 0 1 0 0 0 1 := by
  rw [Mat3x3.Inv_unfold, Mat3x3.Mul_unfold]
  generalize hd : M.Deter = d at h ⊢
  rw [Mat3x3.Deter_unfold] at hd
  subst hd
  ext <;> simp only [NewMat3x3] <;> field_simp <;> ring

/-- The loop of `Mul` is associative. -/
theorem Mat3x3.Mul_assoc (a b c : Mat3x3 R) : (a.Mul b).Mul c = a.Mul (b.Mul c) := by
  simp only [Mat3x3.Mul_unfold]
  ext <;> simp only [] <;> ring

/-- When the third column of `a` is `(0, 0, 1)`, applying `a.Mul b` is
applying `a` and then `b`. -/
theorem Mat3x3.Apply_Mul_of_affine (a b : Mat3x3 R) (x y : R) (h : a.IsAffine) :
    (a.Mul b).Apply x y = b.Apply (a.Apply x y).1 (a.Apply x y).2 := by
  obtain ⟨h2, h5, h8⟩ := h
  have e2 : a.m2 = 0 := h2
  have e5 : a.m5 = 0 := h5
  have e8 : a.m8 = 1 := h8
  simp only [Mat3x3.Mul_unfold, Mat3x3.Apply_unfold, e2, e5, e8, Prod.mk.injEq]
  constructor <;> ring

end Lemmas

section OrderedLemmas

variable {R : Type} [LinearOrderedField R]

/-- One iteration of the loop of `Fix` is a write of the snapped entry. -/
theorem Mat3x3.Fix_step (m : Mat3x3 R) (i : Nat) :
    (if |m.get i| < eps then m.set i 0 else m)
      = m.set i (if |m.get i| < eps then 0 else m.get i) := by
  split_ifs with h
  · rfl
  · unfold Mat3x3.set Mat3x3.get
    split <;> rfl

/-- Closed form of `Fix`: every entry is snapped on its own. -/
theorem Mat3x3.Fix_unfold (m : Mat3x3 R) :
    m.Fix =
      ⟨if |m.m0| < eps then 0 else m.m0, if |m.m1| < eps then 0 else m.m1,
       if |m.m2| < eps then 0 else m.m2, if |m.m3| < eps then 0 else m.m3,
       if |m.m4| < eps then 0 else m.m4, if |m.m5| < eps then 0 else m.m5,
       if |m.m6| < eps then 0 else m.m6, if |m.m7| < eps then 0 else m.m7,
       if |m.m8| < eps then 0 else m.m8⟩ := by
  unfold Mat3x3.Fix
  simp only [Mat3x3.Fix_step]
  rfl

end OrderedLemmas

/-! ## Claims -/

section Claims

variable {R : Type} [Field R]

/-- C1: for every matrix `M` with `Deter(M) ≠ 0`, `Mul(M, Inv(M))` is the
matrix `{1,0,0,0,1,0,0,0,1}`; hence it maps every point `(x, y)` to itself and
has determinant `1`. -/
theorem inv_round_trip (M : Mat3x3 R) (h : M.Deter ≠ 0) :
    Mul M M.Inv = NewMat3x3 1 0 0 0 1 0 0 0 1
      ∧ (∀ x y : R, (Mul M M.Inv).Apply x y = (x, y))
      ∧ (Mul M M.Inv).Deter = 1 := by
  have key : Mul M M.Inv = NewMat3x3 1 0 0 0 1 0 0 0 1 := Mat3x3.Mul_Inv_eq M h
  refine ⟨key, ?_, ?_⟩
  · intro x y
    rw [key]
    simp [Mat3x3.Apply_unfold, NewMat3x3]
  · rw [key]
    simp [Mat3x3.Deter_unfold, NewMat3x3]

/-- Witness for C1 at the rational matrix `{2,1,0,1,3,0,5,7,1}`, whose
determinant is `5`. -/
theorem inv_round_trip_witness :
    (NewMat3x3 2 1 0 1 3 0 5 7 1 : Mat3x3 ℚ).Deter ≠ 0
      ∧ (Mul (NewMat3x3 2 1 0 1 3 0 5 7 1 : Mat3x3 ℚ) (NewMat3x3 2 1 0 1 3 0 5 7 1).Inv
            = NewMat3x3 1 0 0 0 1 0 0 0 1
          ∧ (∀ x y : ℚ,
              (Mul (NewMat3x3 2 1 0 1 3 0 5 7 1 : Mat3x3 ℚ)
                (NewMat3x3 2 1 0 1 3 0 5 7 1).Inv).Apply x y = (x, y))
          ∧ (Mul (NewMat3x3 2 1 0 1 3 0 5 7 1 : Mat3x3 ℚ)
                (NewMat3x3 2 1 0 1 3 0 5 7 1).Inv).Deter = 1) :=
  ⟨by norm_num [Mat3x3.Deter_unfold, NewMat3x3],
   inv_round_trip _ (by norm_num [Mat3x3.Deter_unfold, NewMat3x3])⟩

/-- Counterexample to C2 as stated.  Over exact arithmetic: with
`A = {1,0,0,0,1,0,0,0,2}` (third column `(0,0,2)`) and `B = Move(1, 0)`, the
product sends the origin to `(2, 0)` while applying `A` and then `B` sends it
to `(1, 0)`.  Over `Float64`, also for a matrix with third column `(0,0,1)`:
with `A = Scale(0.2, 0.2)`, `B = Scale(0.3, 0.3)` and the point `(0.1, 0)` the
product gives `(0.006, 0)` and `A` then `B` gives `(0.006000000000000001, 0)`. -/
theorem mul_apply_not_composition :
    ((Mul (NewMat3x3 1 0 0 0 1 0 0 0 2 : Mat3x3 ℚ) (Move 1 0)).Apply 0 0 = (2, 0)
      ∧ (Move 1 0 : Mat3x3 ℚ).Apply
          ((NewMat3x3 1 0 0 0 1 0 0 0 2 : Mat3x3 ℚ).Apply 0 0).1
          ((NewMat3x3 1 0 0 0 1 0 0 0 2 : Mat3x3 ℚ).Apply 0 0).2 = (1, 0)
      ∧ (Mul (NewMat3x3 1 0 0 0 1 0 0 0 2 : Mat3x3 ℚ) (Move 1 0)).Apply 0 0
          ≠ (Move 1 0 : Mat3x3 ℚ).Apply
              ((NewMat3x3 1 0 0 0 1 0 0 0 2 : Mat3x3 ℚ).Apply 0 0).1
              ((NewMat3x3 1 0 0 0 1 0 0 0 2 : Mat3x3 ℚ).Apply 0 0).2)
      ∧ ((Mul (Scale (0.2 : Float64) 0.2) (Scale 0.3 0.3)).Apply 0.1 0 = (0.006, 0)
        ∧ (Scale (0.3 : Float64) 0.3).Apply ((Scale (0.2 : Float64) 0.2).Apply 0.1 0).1
            ((Scale (0.2 : Float64) 0.2).Apply 0.1 0).2 = (0.006000000000000001, 0)
        ∧ (Mul (Scale (0.2 : Float64) 0.2) (Scale 0.3 0.3)).Apply 0.1 0
            ≠ (Scale (0.3 : Float64) 0.3).Apply ((Scale (0.2 : Float64) 0.2).Apply 0.1 0).1
                ((Scale (0.2 : Float64) 0.2).Apply 0.1 0).2) := by
  refine ⟨⟨?_, ?_, ?_⟩, ⟨?_, ?_, ?_⟩⟩
  · norm_num [Mul, Mat3x3.Mul_unfold, Mat3x3.Apply_unfold, NewMat3x3, Move]
  · norm_num [Mul, Mat3x3.Mul_unfold, Mat3x3.Apply_unfold, NewMat3x3, Move]
  · norm_num [Mul, Mat3x3.Mul_unfold, Mat3x3.Apply_unfold, NewMat3x3, Move]
  · decide!
  · decide!
  · decide!

/-- C2 (amended): over exact arithmetic (`R` any field), for every matrix `A`
whose third column is `(0, 0, 1)`, every matrix `B` and every point `(x, y)`,
applying `Mul(A, B)` equals applying `A` and then `B`. -/
theorem mul_apply_composition (A B : Mat3x3 R) (x y : R)
    (h2 : A.get 2 = 0) (h5 : A.get 5 = 0) (h8 : A.get 8 = 1) :
    (Mul A B).Apply x y = B.Apply (A.Apply x y).1 (A.Apply x y).2 := by
  have e2 : A.m2 = 0 := h2
  have e5 : A.m5 = 0 := h5
  have e8 : A.m8 = 1 := h8
  simp only [Mul, Mat3x3.Mul_unfold, Mat3x3.Apply_unfold, e2, e5, e8, Prod.mk.injEq]
  constructor <;> ring

/-- Witness for C2 (amended) at `A = Scale(2, 3)`, `B = Move(5, 7)` and the
point `(1, 1)`. -/
theorem mul_apply_composition_witness :
    ((Scale 2 3 : Mat3x3 ℚ).get 2 = 0 ∧ (Scale 2 3 : Mat3x3 ℚ).get 5 = 0
        ∧ (Scale 2 3 : Mat3x3 ℚ).get 8 = 1)
      ∧ (Mul (Scale 2 3 : Mat3x3 ℚ) (Move 5 7)).Apply 1 1
          = (Move 5 7 : Mat3x3 ℚ).Apply ((Scale 2 3 : Mat3x3 ℚ).Apply 1 1).1
              ((Scale 2 3 : Mat3x3 ℚ).Apply 1 1).2 :=
  ⟨⟨rfl, rfl, rfl⟩, mul_apply_composition (Scale 2 3) (Move 5 7) 1 1 rfl rfl rfl⟩

/-- C3: multiplication is associative, `Mul(Mul(A, B), C) = Mul(A, Mul(B, C))`
entry by entry. -/
theorem mul_assoc_exact (A B C : Mat3x3 R) :
    Mul (Mul A B) C = Mul A (Mul B C) := by
  simp only [Mul, Mat3x3.Mul_unfold]
  ext <;> simp only [] <;> ring

/-- C5 (amended): over exact arithmetic (`R` any field) the pivot is a fixed
point, `RotateWithPo(theta, x, y).Apply(x, y)` is `(x, y)`, whatever values
the cosine and sine take. -/
theorem pivot_fixed_point (cos sin : R → R) (theta x y : R) :
    (RotateWithPo cos sin theta x y).Apply x y = (x, y) := by
  simp only [RotateWithPo, Mat3x3.WithPo, Rotate, Move, NewMat3x3, Mat3x3.Mul_unfold,
    Mat3x3.Apply_unfold, Prod.mk.injEq]
  constructor <;> ring

/-- C6 (amended): over the reals, with the real cosine and sine, rotations
have determinant `1`, for `Rotate(theta)` and for
`RotateWithPo(theta, x, y)`. -/
theorem rotate_deter_one (theta x y : ℝ) :
    (Rotate Real.cos Real.sin theta).Deter = 1
      ∧ (RotateWithPo Real.cos Real.sin theta x y).Deter = 1 := by
  have hcs := Real.cos_sq_add_sin_sq theta
  constructor
  · simp only [Rotate, NewMat3x3, Mat3x3.Deter_unfold]
    linear_combination hcs
  · simp only [RotateWithPo, Mat3x3.WithPo, Rotate, Move, NewMat3x3, Mat3x3.Mul_unfold,
      Mat3x3.Deter_unfold]
    linear_combination hcs

/-- Counterexample to C7 as stated: `SymAboutO = {-1,0,0,0,-1,0,0,0,1}` has
determinant `1`, not `-1`. -/
theorem symAboutO_deter_not_neg_one :
    (SymAboutO : Mat3x3 ℚ).Deter = 1 ∧ (SymAboutO : Mat3x3 ℚ).Deter ≠ -1 := by
  constructor <;> norm_num [SymAboutO, NewMat3x3, Mat3x3.Deter_unfold]

/-- C7 (amended): the four axis and diagonal reflections `SymAboutX`,
`SymAboutY`, `SymAboutXY`, `SymAboutXfY` have determinant `-1`, and the point
reflection `SymAboutO` has determinant `1`. -/
theorem sym_deter (R : Type) [Field R] :
    (SymAboutX : Mat3x3 R).Deter = -1 ∧ (SymAboutY : Mat3x3 R).Deter = -1
      ∧ (SymAboutXY : Mat3x3 R).Deter = -1 ∧ (SymAboutXfY : Mat3x3 R).Deter = -1
      ∧ (SymAboutO : Mat3x3 R).Deter = 1 := by
  refine ⟨?_, ?_, ?_, ?_, ?_⟩ <;>
    simp [SymAboutX, SymAboutY, SymAboutO, SymAboutXY, SymAboutXfY, NewMat3x3,
      Mat3x3.Deter_unfold]

/-- C8: `Deter` is the first-row cofactor expansion
`a*(e*i - f*h) - b*(d*i - f*g) + c*(d*h - e*g)` of the row-major entries
`a..i = M[0..8]`, and equals the determinant of the 3x3 matrix. -/
theorem deter_is_determinant (M : Mat3x3 R) :
    M.Deter = M.get 0 * (M.get 4 * M.get 8 - M.get 5 * M.get 7)
        - M.get 1 * (M.get 3 * M.get 8 - M.get 5 * M.get 6)
        + M.get 2 * (M.get 3 * M.get 7 - M.get 4 * M.get 6)
      ∧ M.Deter = M.toMatrix.det := by
  constructor
  · simp only [Mat3x3.Deter]
    ring
  · rw [Matrix.det_fin_three]
    simp [Mat3x3.toMatrix, Mat3x3.Deter]
    ring

/-- C9: after `Fix`, the entry at every index `i` in `0..8` is `0` when
`|M[i]| < 1e-8` and the original `M[i]` otherwise. -/
theorem fix_snaps_near_zero {K : Type} [LinearOrderedField K] (M : Mat3x3 K) (i : Nat)
    (hi : i < 9) :
    (M.Fix).get i = if |M.get i| < (1e-8 : K) then 0 else M.get i := by
  rw [Mat3x3.Fix_unfold]
  change _ = if |M.get i| < eps then 0 else M.get i
  interval_cases i <;> rfl

/-- Witness for C9 at the rational matrix `{1/1000000000, 1, 0, -1, 1/100000000,
0, 5, 7, 1}` and index `0`. -/
theorem fix_snaps_near_zero_witness :
    0 < 9 ∧ ((NewMat3x3 (1 / 1000000000) 1 0 (-1) (1 / 100000000) 0 5 7 1 : Mat3x3 ℚ).Fix).get 0
      = if |(NewMat3x3 (1 / 1000000000) 1 0 (-1) (1 / 100000000) 0 5 7 1 : Mat3x3 ℚ).get 0|
            < (1e-8 : ℚ) then 0
        else (NewMat3x3 (1 / 1000000000) 1 0 (-1) (1 / 100000000) 0 5 7 1 : Mat3x3 ℚ).get 0 :=
  ⟨by decide, fix_snaps_near_zero _ 0 (by decide)⟩

/-- Counterexample to C13 as stated: at `theta = 0` the determinant of
`RotateClockwise(theta)` is `1`, which is not the negative of the determinant
of `Rotate(theta)` and is not `-1`. -/
theorem rotateClockwise_deter_not_flipped :
    (RotateClockwise Real.cos Real.sin 0).Deter = 1
      ∧ (RotateClockwise Real.cos Real.sin 0).Deter ≠ -(Rotate Real.cos Real.sin 0).Deter
      ∧ (RotateClockwise Real.cos Real.sin 0).Deter ≠ -1 := by
  refine ⟨?_, ?_, ?_⟩ <;>
    norm_num [RotateClockwise, Rotate, NewMat3x3, Mat3x3.Deter_unfold]

/-- C13 (amended): over the reals, with the real cosine and sine,
`RotateClockwise` keeps the determinant of `Rotate`; for every angle both
determinants are `1`. -/
theorem rotateClockwise_deter (theta : ℝ) :
    (RotateClockwise Real.cos Real.sin theta).Deter = (Rotate Real.cos Real.sin theta).Deter
      ∧ (RotateClockwise Real.cos Real.sin theta).Deter = 1 := by
  have hcs := Real.cos_sq_add_sin_sq theta
  constructor
  · simp only [RotateClockwise, Rotate, NewMat3x3, Mat3x3.Deter_unfold]
    ring
  · simp only [RotateClockwise, NewMat3x3, Mat3x3.Deter_unfold]
    linear_combination hcs

/-- C14 (amended): for a matrix `M` whose third column is `(0, 0, 1)`,
`M.WithPo(px, py)` is the product `Move(-px,-py) * M * Move(px,py)` and, over
exact arithmetic (`R` any field), sends `(x, y)` to `(u + px, v + py)` where
`(u, v) = M.Apply(x - px, y - py)`. -/
theorem withPo_conjugates (M : Mat3x3 R) (px py x y : R) (h : M.IsAffine) :
    M.WithPo px py = Mul (Mul (Move (-px) (-py)) M) (Move px py)
      ∧ (M.WithPo px py).Apply x y
          = ((M.Apply (x - px) (y - py)).1 + px, (M.Apply (x - px) (y - py)).2 + py) := by
  obtain ⟨h2, h5, h8⟩ := h
  have e2 : M.m2 = 0 := h2
  have e5 : M.m5 = 0 := h5
  have e8 : M.m8 = 1 := h8
  refine ⟨rfl, ?_⟩
  simp only [Mat3x3.WithPo, Move, NewMat3x3, Mat3x3.Mul_unfold, Mat3x3.Apply_unfold, e2, e5,
    e8, Prod.mk.injEq]
  constructor <;> ring

/-- Witness for C14 at `M = Scale(2, 3)`, pivot `(1, 1)` and point `(4, 5)`. -/
theorem withPo_conjugates_witness :
    (Scale (2 : ℚ) 3).IsAffine
      ∧ ((Scale (2 : ℚ) 3).WithPo 1 1 = Mul (Mul (Move (-1) (-1)) (Scale 2 3)) (Move 1 1)
        ∧ ((Scale (2 : ℚ) 3).WithPo 1 1).Apply 4 5
            = (((Scale (2 : ℚ) 3).Apply (4 - 1) (5 - 1)).1 + 1,
               ((Scale (2 : ℚ) 3).Apply (4 - 1) (5 - 1)).2 + 1)) :=
  ⟨⟨rfl, rfl, rfl⟩, withPo_conjugates (Scale 2 3) 1 1 4 5 ⟨rfl, rfl, rfl⟩⟩

/-- C17 (amended): over exact arithmetic (`K` any field), when the third
column of `A` is `(0, 0, 1)`, applying `Mul(A, B)` equals applying `A` and then
`B`, for every `B` and every point; and there is a matrix `A` with another
third column for which the two differ. -/
theorem composition_iff_affine_first (K : Type) [Field K] :
    (∀ (A B : Mat3x3 K) (x y : K), A.IsAffine →
        (Mul A B).Apply x y = B.Apply (A.Apply x y).1 (A.Apply x y).2)
      ∧ ∃ (A B : Mat3x3 K) (x y : K), ¬ A.IsAffine
          ∧ (Mul A B).Apply x y ≠ B.Apply (A.Apply x y).1 (A.Apply x y).2 := by
  refine ⟨fun A B x y h => Mat3x3.Apply_Mul_of_affine A B x y h, ?_⟩
  refine ⟨One, Move 1 0, 0, 0, ?_, ?_⟩
  · rintro ⟨-, -, h8⟩
    have e8 : (0 : K) = 1 := h8
    exact zero_ne_one e8
  · intro h
    have h1 := congrArg Prod.fst h
    simp [Mul, Mat3x3.Mul_unfold, Mat3x3.Apply_unfold, One, Move, NewMat3x3] at h1

/-- Witness for C17 at `A = Scale(2, 3)`, `B = Move(5, 7)` and the point
`(1, 1)`. -/
theorem composition_iff_affine_first_witness :
    (Scale (2 : ℚ) 3).IsAffine
      ∧ (Mul (Scale (2 : ℚ) 3) (Move 5 7)).Apply 1 1
          = (Move (5 : ℚ) 7).Apply ((Scale (2 : ℚ) 3).Apply 1 1).1
              ((Scale (2 : ℚ) 3).Apply 1 1).2 :=
  ⟨⟨rfl, rfl, rfl⟩,
    (composition_iff_affine_first ℚ).1 (Scale 2 3) (Move 5 7) 1 1 ⟨rfl, rfl, rfl⟩⟩

/-- C18 (amended): over exact arithmetic (`R` any field) the determinant is
multiplicative, `Deter(Mul(A, B)) = Deter(A) * Deter(B)`. -/
theorem deter_mul (A B : Mat3x3 R) : (Mul A B).Deter = A.Deter * B.Deter := by
  simp only [Mul, Mat3x3.Mul_unfold, Mat3x3.Deter_unfold]
  ring

/-- C19 (amended): over the reals, with the real cosine and sine, rotations
compose by adding angles, `Mul(Rotate(a), Rotate(b)) = Rotate(a + b)`, so the
fluent `m.Rotate(a).Rotate(b)` is `m.Rotate(a + b)`, and `Inv(Rotate(a))` is
`Rotate(-a)`. -/
theorem rotate_add (a b : ℝ) (m : Mat3x3 ℝ) :
    Mul (Rotate Real.cos Real.sin a) (Rotate Real.cos Real.sin b)
        = Rotate Real.cos Real.sin (a + b)
      ∧ (m.Rotate Real.cos Real.sin a).Rotate Real.cos Real.sin b
          = m.Rotate Real.cos Real.sin (a + b)
      ∧ (Rotate Real.cos Real.sin a).Inv = Rotate Real.cos Real.sin (-a) := by
  have hadd : (Rotate Real.cos Real.sin a).Mul (Rotate Real.cos Real.sin b)
      = Rotate Real.cos Real.sin (a + b) := by
    simp only [Rotate, NewMat3x3, Mat3x3.Mul_unfold, Real.cos_add, Real.sin_add]
    ext <;> simp only [] <;> ring
  refine ⟨hadd, ?_, ?_⟩
  · simp only [Mat3x3.Rotate]
    rw [Mat3x3.Mul_assoc, hadd]
  · have hcs := Real.cos_sq_add_sin_sq a
    have hdet : (Rotate Real.cos Real.sin a).Deter = 1 := by
      simp only [Rotate, NewMat3x3, Mat3x3.Deter_unfold]
      linear_combination hcs
    rw [Mat3x3.Inv_unfold, hdet]
    simp only [Rotate, NewMat3x3, Real.cos_neg, Real.sin_neg]
    ext <;> simp only [] <;> first | ring1 | linear_combination hcs

/-- C20 (amended): over the reals, with the real cosine, sine and `pi`,
`RotateClockwise(theta)` is `Rotate(pi - theta)` entry by entry; hence
`Mul(Rotate(theta), RotateClockwise(theta))` is `Rotate(pi)`, which is
`SymAboutO`, and is never the unit matrix. -/
theorem rotateClockwise_supplementary (theta : ℝ) :
    RotateClockwise Real.cos Real.sin theta = Rotate Real.cos Real.sin (Real.pi - theta)
      ∧ Mul (Rotate Real.cos Real.sin theta) (RotateClockwise Real.cos Real.sin theta)
          = Rotate Real.cos Real.sin Real.pi
      ∧ Rotate Real.cos Real.sin Real.pi = SymAboutO
      ∧ Mul (Rotate Real.cos Real.sin theta) (RotateClockwise Real.cos Real.sin theta)
          ≠ NewMat3x3 1 0 0 0 1 0 0 0 1 := by
  have hcs := Real.cos_sq_add_sin_sq theta
  have hprod : Mul (Rotate Real.cos Real.sin theta) (RotateClockwise Real.cos Real.sin theta)
      = Rotate Real.cos Real.sin Real.pi := by
    simp only [Mul, Rotate, RotateClockwise, NewMat3x3, Mat3x3.Mul_unfold, Real.cos_pi,
      Real.sin_pi]
    ext <;> simp only [] <;> first | ring1 | linear_combination -hcs
  refine ⟨?_, hprod, ?_, ?_⟩
  · simp only [RotateClockwise, Rotate, Real.cos_pi_sub, Real.sin_pi_sub]
  · simp [Rotate, SymAboutO, NewMat3x3]
  · rw [hprod]
    intro h
    have h0 : (Rotate Real.cos Real.sin Real.pi).m0 = (NewMat3x3 1 0 0 0 1 0 0 0 1 : Mat3x3 ℝ).m0 := by
      rw [h]
    norm_num [Rotate, NewMat3x3] at h0

end Claims

/-! ## Evaluations over `Float64` -/

section Float64Claims

/-- Counterexample to C5 as stated, over `Float64`: with `math.Cos(1) =
0.5403023058681398` and `math.Sin(1) = 0.8414709848078965`,
`RotateWithPo(1, 3, 4).Apply(3, 4)` is `(2.9999999999999996, 4)`, not `(3, 4)`. -/
theorem pivot_moved_float64 :
    (RotateWithPo (fun _ => (0.5403023058681398 : Float64)) (fun _ => 0.8414709848078965)
        1 3 4).Apply 3 4 = (2.9999999999999996, 4)
      ∧ (RotateWithPo (fun _ => (0.5403023058681398 : Float64)) (fun _ => 0.8414709848078965)
          1 3 4).Apply 3 4 ≠ (3, 4) := by
  constructor <;> decide!

/-- Counterexample to C6 as stated, over `Float64`: with `math.Cos(0.125) =
0.992197667229329` and `math.Sin(0.125) = 0.12467473338522769`, the
determinants of `Rotate(0.125)` and of `RotateWithPo(0.125, 3, 4)` are
`0.9999999999999999`, not `1`. -/
theorem rotate_deter_float64 :
    (Rotate (fun _ => (0.992197667229329 : Float64)) (fun _ => 0.12467473338522769)
        0.125).Deter = 0.9999999999999999
      ∧ (RotateWithPo (fun _ => (0.992197667229329 : Float64)) (fun _ => 0.12467473338522769)
          0.125 3 4).Deter = 0.9999999999999999
      ∧ (0.9999999999999999 : Float64) ≠ 1 := by
  refine ⟨?_, ?_, ?_⟩ <;> decide!

/-- Counterexample to C14 as stated, over `Float64`: for the affine matrix
`Scale(0.1, 0.1)`, pivot `(0.1, 0)` and point `(0.2, 0)`, `WithPo` followed by
`Apply` gives `(0.11, 0)` while `Apply` at the shifted point followed by the
shift back gives `(0.11000000000000001, 0)`. -/
theorem withPo_apply_float64 :
    (Scale (0.1 : Float64) 0.1).IsAffine
      ∧ ((Scale (0.1 : Float64) 0.1).WithPo 0.1 0).Apply 0.2 0 = (0.11, 0)
      ∧ (((Scale (0.1 : Float64) 0.1).Apply (0.2 - 0.1) (0 - 0)).1 + 0.1,
          ((Scale (0.1 : Float64) 0.1).Apply (0.2 - 0.1) (0 - 0)).2 + 0)
          = (0.11000000000000001, 0)
      ∧ ((Scale (0.1 : Float64) 0.1).WithPo 0.1 0).Apply 0.2 0
          ≠ (((Scale (0.1 : Float64) 0.1).Apply (0.2 - 0.1) (0 - 0)).1 + 0.1,
              ((Scale (0.1 : Float64) 0.1).Apply (0.2 - 0.1) (0 - 0)).2 + 0) := by
  refine ⟨⟨rfl, rfl, rfl⟩, ?_, ?_, ?_⟩ <;> decide!

/-- Counterexample to C17 as stated, over `Float64`: for the affine matrix
`A = Scale(0.1, 0.1)`, `B = Scale(0.1, 0.1)` and the point `(0.3, 0)`, the
product gives `(0.0030000000000000005, 0)` while `A` and then `B` gives
`(0.003, 0)`. -/
theorem affine_composition_float64 :
    (Scale (0.1 : Float64) 0.1).IsAffine
      ∧ (Mul (Scale (0.1 : Float64) 0.1) (Scale 0.1 0.1)).Apply 0.3 0
          = (0.0030000000000000005, 0)
      ∧ (Scale (0.1 : Float64) 0.1).Apply ((Scale (0.1 : Float64) 0.1).Apply 0.3 0).1
          ((Scale (0.1 : Float64) 0.1).Apply 0.3 0).2 = (0.003, 0)
      ∧ (Mul (Scale (0.1 : Float64) 0.1) (Scale 0.1 0.1)).Apply 0.3 0
          ≠ (Scale (0.1 : Float64) 0.1).Apply ((Scale (0.1 : Float64) 0.1).Apply 0.3 0).1
              ((Scale (0.1 : Float64) 0.1).Apply 0.3 0).2 := by
  refine ⟨⟨rfl, rfl, rfl⟩, ?_, ?_, ?_⟩ <;> decide!

/-- Counterexample to C18 as stated, over `Float64`: for
`A = {0.1,0.2,0,0.3,0.4,0,0,0,1}` and `B = {0.5,0.6,0,0.7,0.8,0,0,0,1}`,
`Deter(Mul(A, B))` is `0.0003999999999999976` and `Deter(A) * Deter(B)` is
`0.00039999999999999904`. -/
theorem deter_mul_float64 :
    (Mul (NewMat3x3 (0.1 : Float64) 0.2 0 0.3 0.4 0 0 0 1)
        (NewMat3x3 0.5 0.6 0 0.7 0.8 0 0 0 1)).Deter = 0.0003999999999999976
      ∧ (NewMat3x3 (0.1 : Float64) 0.2 0 0.3 0.4 0 0 0 1).Deter
          * (NewMat3x3 (0.5 : Float64) 0.6 0 0.7 0.8 0 0 0 1).Deter = 0.00039999999999999904
      ∧ (Mul (NewMat3x3 (0.1 : Float64) 0.2 0 0.3 0.4 0 0 0 1)
          (NewMat3x3 0.5 0.6 0 0.7 0.8 0 0 0 1)).Deter
          ≠ (NewMat3x3 (0.1 : Float64) 0.2 0 0.3 0.4 0 0 0 1).Deter
            * (NewMat3x3 (0.5 : Float64) 0.6 0 0.7 0.8 0 0 0 1).Deter := by
  refine ⟨?_, ?_, ?_⟩ <;> decide!

/-- Counterexample to C19 as stated, over `Float64`.  With the library values
`math.Cos(0.25) = 0.9689124217106447`, `math.Sin(0.25) = 0.24740395925452294`,
`math.Cos(0.5) = 0.8775825618903728` and `math.Sin(0.5) = 0.479425538604203`,
entry `0` of `Mul(Rotate(0.25), Rotate(0.25))` is `0.8775825618903726` while
entry `0` of `Rotate(0.25 + 0.25)` is `0.8775825618903728`.  With
`math.Cos(±0.125) = 0.992197667229329` and `math.Sin(±0.125) =
±0.12467473338522769`, entry `0` of `Inv(Rotate(0.125))` is
`0.9921976672293292` while entry `0` of `Rotate(-0.125)` is
`0.992197667229329`. -/
theorem rotate_add_float64 :
    ((Mul
        (Rotate
          (fun t : Float64 => if t = 0.25 then 0.9689124217106447 else 0.8775825618903728)
          (fun t : Float64 => if t = 0.25 then 0.24740395925452294 else 0.479425538604203)
          0.25)
        (Rotate
          (fun t : Float64 => if t = 0.25 then 0.9689124217106447 else 0.8775825618903728)
          (fun t : Float64 => if t = 0.25 then 0.24740395925452294 else 0.479425538604203)
          0.25)).get 0 = 0.8775825618903726
      ∧ (Rotate
          (fun t : Float64 => if t = 0.25 then 0.9689124217106447 else 0.8775825618903728)
          (fun t : Float64 => if t = 0.25 then 0.24740395925452294 else 0.479425538604203)
          (0.25 + 0.25)).get 0 = 0.8775825618903728
      ∧ (0.8775825618903726 : Float64) ≠ 0.8775825618903728)
    ∧ ((Rotate (fun _ : Float64 => 0.992197667229329)
          (fun t : Float64 => if t = 0.125 then 0.12467473338522769
            else -0.12467473338522769) 0.125).Inv.get 0 = 0.9921976672293292
      ∧ (Rotate (fun _ : Float64 => 0.992197667229329)
          (fun t : Float64 => if t = 0.125 then 0.12467473338522769
            else -0.12467473338522769) (-0.125)).get 0 = 0.992197667229329
      ∧ (0.9921976672293292 : Float64) ≠ 0.992197667229329) := by
  refine ⟨⟨?_, ?_, ?_⟩, ⟨?_, ?_, ?_⟩⟩ <;> decide!

/-- Counterexample to C20 as stated, over `Float64`, where the program has
`math.Pi = 3.141592653589793`.  With `math.Cos(math.Pi) = -1` and
`math.Sin(math.Pi) = 1.2246467991473515e-16`, `Rotate(math.Pi)` has entry `1`
equal to `1.2246467991473515e-16`, so it is not `SymAboutO`.  With
`math.Sin(1) = 0.8414709848078965` and `math.Sin(math.Pi - 1) =
0.8414709848078966`, entry `1` of `RotateClockwise(1)` differs from entry `1`
of `Rotate(math.Pi - 1)` (the cosines used are `math.Cos(1) =
0.5403023058681398` and `math.Cos(math.Pi - 1) = -0.5403023058681395`). -/
theorem rotate_pi_float64 :
    ((Rotate (fun _ : Float64 => -1) (fun _ : Float64 => 1.2246467991473515e-16)
        3.141592653589793).get 1 = 1.2246467991473515e-16
      ∧ (SymAboutO : Mat3x3 Float64).get 1 = 0
      ∧ Rotate (fun _ : Float64 => -1) (fun _ : Float64 => 1.2246467991473515e-16)
          3.141592653589793 ≠ SymAboutO)
    ∧ ((RotateClockwise
          (fun t : Float64 => if t = 1 then 0.5403023058681398 else -0.5403023058681395)
          (fun t : Float64 => if t = 1 then 0.8414709848078965 else 0.8414709848078966)
          1).get 1 = 0.8414709848078965
      ∧ (Rotate
          (fun t : Float64 => if t = 1 then 0.5403023058681398 else -0.5403023058681395)
          (fun t : Float64 => if t = 1 then 0.8414709848078965 else 0.8414709848078966)
          (3.141592653589793 - 1)).get 1 = 0.8414709848078966
      ∧ RotateClockwise
          (fun t : Float64 => if t = 1 then 0.5403023058681398 else -0.5403023058681395)
          (fun t : Float64 => if t = 1 then 0.8414709848078965 else 0.8414709848078966) 1
        ≠ Rotate
          (fun t : Float64 => if t = 1 then 0.5403023058681398 else -0.5403023058681395)
          (fun t : Float64 => if t = 1 then 0.8414709848078965 else 0.8414709848078966)
          (3.141592653589793 - 1)) := by
  refine ⟨⟨?_, ?_, ?_⟩, ⟨?_, ?_, ?_⟩⟩ <;> decide!

end Float64Claims

end Geo
